import Mathlib

/-!
Verification of the `Serialized` provider (`src/providers/serialized.rs`).

The provider holds a serializable value, an optional dot-delimited key path,
a profile, and a construction location.  Its `data` operation serializes the
value, optionally wraps it in nested one-entry dictionaries derived from the
key path (`value_from`), checks that the result is a dictionary, and pairs it
with the profile.  The collaborator types (`Value`, `Dict`, `Profile`,
`Error`) live outside the translated file and are modelled from the spec.
-/

namespace Figment

/-- Modelled from the spec: the Structured Value sum type — a recursive tree
over null, booleans, integers, floats (represented here by their bit pattern,
to keep the type executable; no claim touches float arithmetic), strings,
arrays, and string-keyed dictionaries.  The repository's `crate::value::Value`
is not under `src/`. -/
inductive Value where
  | null
  | boolean (b : Bool)
  | num (n : Int)
  | float (bits : Nat)
  | str (s : String)
  | array (elems : List Value)
  | dict (pairs : List (String × Value))

/-- Modelled from the spec: `Dict` is an ordered mapping from string keys to
values, insertion order preserved, keys unique. -/
abbrev Dict := List (String × Value)

/-- Modelled from the spec: the empty dictionary (`Dict::new()`). -/
def Dict.new : Dict := []

/-- Modelled from the spec: insertion into a dictionary — replaces the entry
when the key is present, otherwise appends, preserving insertion order. -/
def Dict.insert (d : Dict) (k : String) (v : Value) : Dict :=
  if d.any (fun p => p.1 = k) then
    d.map (fun p => if p.1 = k then (k, v) else p)
  else
    d ++ [(k, v)]

/-- Modelled from the spec: a profile identifier is an opaque case-sensitive
string; two profiles are equal iff their strings are equal. -/
abbrev Profile := String

/-- Modelled from the spec: the reserved "default" profile. -/
def Profile.Default : Profile := "default"

/-- Modelled from the spec: the reserved "global" profile. -/
def Profile.Global : Profile := "global"

/-- Modelled from the spec: `Profile::collect(dict)` produces the single-entry
mapping from the profile to the dictionary. -/
def Profile.collect (p : Profile) (d : Dict) : List (Profile × Dict) := [(p, d)]

/-- Modelled from the spec: the observed kind of a serialized value as
reported in type-mismatch errors (e.g. "string", "array", "integer");
dictionaries report "map".  The repository's `Value::to_actual` is not under
`src/`. -/
def Value.to_actual : Value → String
  | .null => "null"
  | .boolean _ => "boolean"
  | .num _ => "integer"
  | .float _ => "float"
  | .str _ => "string"
  | .array _ => "array"
  | .dict _ => "map"

/-- Modelled from the spec: `Value::into_dict` succeeds exactly on
dictionary-shaped values, yielding the underlying dictionary. -/
def Value.into_dict : Value → Option Dict
  | .dict d => some d
  | _ => none

/-- Modelled from the spec: the two error kinds originating in this unit.
`invalidType` is the source's name (`Kind::InvalidType`) for the spec's
`TypeMismatch(actual, expected)`; `serialization` wraps a serialization
failure, propagating its cause verbatim. -/
inductive Error where
  | serialization (cause : String)
  | invalidType (actual : String) (expected : String)
  deriving DecidableEq

/-- Rust's `str::split` on a single-character delimiter, modelled on the
underlying character list: the (possibly empty) segments between occurrences
of the delimiter; the empty string yields one empty segment. -/
def splitChars (c : Char) : List Char → List (List Char)
  | [] => [[]]
  | x :: xs =>
    match splitChars c xs with
    | seg :: segs => if x = c then [] :: seg :: segs else (x :: seg) :: segs
    | [] => [[x]]

/-- `s.split(c)` as a list of strings (Rust `str::split` semantics). -/
def splitString (c : Char) (s : String) : List String :=
  (splitChars c s.data).map String.mk

/-- Translation of `value_from` (`serialized.rs:138-147`): consume the split
key segments; a non-empty segment wraps the recursive result into a fresh
one-entry dictionary; an empty segment — or exhaustion — returns the value
as-is (note that an empty segment therefore stops the recursion and the
remaining segments are never consumed). -/
def value_from : List String → Value → Value
  | [], value => value
  | k :: keys, value =>
    if k = "" then value
    else Value.dict (Dict.insert Dict.new k (value_from keys value))

/-- Translation of `struct Serialized<T>` (`serialized.rs:34-43`): the held
value, the optional key path, the profile, and the recorded construction
location (modelled as a string; it is purely diagnostic). -/
structure Serialized (T : Type) where
  value : T
  key : Option String
  profile : Profile
  loc : String

/-- Translation of `Serialized::from` (`serialized.rs:74-81`); the
caller-location capture becomes an explicit argument. -/
def Serialized.from' {T : Type} (value : T) (profile : Profile) (loc : String) :
    Serialized T :=
  ⟨value, none, profile, loc⟩

/-- Translation of `Serialized::defaults` (`serialized.rs:90-92`). -/
def Serialized.defaults {T : Type} (value : T) (loc : String) : Serialized T :=
  Serialized.from' value Profile.Default loc

/-- Translation of `Serialized::globals` (`serialized.rs:101-103`). -/
def Serialized.globals {T : Type} (value : T) (loc : String) : Serialized T :=
  Serialized.from' value Profile.Global loc

/-- Translation of the `Serialized::profile` builder (`serialized.rs:127-130`):
replaces the profile, all other fields unchanged.  (Named `profile'` because
`profile` is already the field's name.) -/
def Serialized.profile' {T : Type} (s : Serialized T) (p : Profile) : Serialized T :=
  { s with profile := p }

/-- Translation of the `Serialized::key` builder (`serialized.rs:132-135`):
sets the key path, all other fields unchanged. -/
def Serialized.key' {T : Type} (s : Serialized T) (k : String) : Serialized T :=
  { s with key := some k }

/-- Translation of `Serialized::default` (`serialized.rs:112-114`). -/
def Serialized.default' {T : Type} (key : String) (value : T) (loc : String) :
    Serialized T :=
  (Serialized.from' value Profile.Default loc).key' key

/-- Translation of `Serialized::global` (`serialized.rs:123-125`). -/
def Serialized.global' {T : Type} (key : String) (value : T) (loc : String) :
    Serialized T :=
  (Serialized.from' value Profile.Global loc).key' key

/-- Translation of `Provider::data` for `Serialized<T>`
(`serialized.rs:154-163`).  The serialization facility (the `Serialize`
bound on `T`) is passed explicitly as `ser`; its failures carry a cause that
`data` wraps as a serialization error.  The serialized value is wrapped via
`value_from` over the `.`-split key when a key is set, and the result must
be dictionary-shaped, else the `InvalidType(actual, "map")` error built up
front is returned. -/
def Serialized.data {T : Type} (ser : T → Except String Value) (s : Serialized T) :
    Except Error (List (Profile × Dict)) :=
  match ser s.value with
  | .error cause => .error (.serialization cause)
  | .ok value =>
    let error := Error.invalidType value.to_actual "map"
    let dictResult : Except Error Dict :=
      match s.key with
      | some key =>
        match (value_from (splitString '.' key) value).into_dict with
        | some d => .ok d
        | none => .error error
      | none =>
        match value.into_dict with
        | some d => .ok d
        | none => .error error
    match dictResult with
    | .error e => .error e
    | .ok dict => .ok (Profile.collect s.profile dict)

/-! Helper lemmas about `value_from`. -/

lemma Dict.insert_new (k : String) (v : Value) : Dict.insert Dict.new k v = [(k, v)] := rfl

lemma value_from_nil (v : Value) : value_from [] v = v := rfl

lemma value_from_cons_ne {k : String} (ks : List String) (v : Value) (h : k ≠ "") :
    value_from (k :: ks) v = Value.dict [(k, value_from ks v)] := by
  simp [value_from, h, Dict.insert, Dict.new]

lemma value_from_cons_empty (ks : List String) (v : Value) :
    value_from ("" :: ks) v = v := by
  simp [value_from]

lemma value_from_all_empty {ks : List String} (v : Value) (h : ∀ seg ∈ ks, seg = "") :
    value_from ks v = v := by
  cases ks with
  | nil => rfl
  | cons k ks =>
    have hk : k = "" := h k (by simp)
    subst hk
    exact value_from_cons_empty ks v

/-- C1: for every value whose serialization succeeds, every profile, and the
key path "a.b.c", `data` succeeds with the single-entry mapping
`{profile ↦ {"a": {"b": {"c": serialized value}}}}` — one fresh one-entry
dictionary per segment, first segment outermost, last segment mapping to the
serialized value. -/
theorem produce_keyed_abc {T : Type} (ser : T → Except String Value) (s : Serialized T)
    (v : Value) (hser : ser s.value = .ok v) (hkey : s.key = some "a.b.c") :
    Serialized.data ser s =
      .ok [(s.profile, [("a", Value.dict [("b", Value.dict [("c", v)])])])] := by
  have hsplit : splitString '.' "a.b.c" = ["a", "b", "c"] := by decide
  simp only [Serialized.data, hser, hkey, hsplit]
  rw [value_from_cons_ne _ _ (by decide), value_from_cons_ne _ _ (by decide),
    value_from_cons_ne _ _ (by decide), value_from_nil]
  rfl

/-- Witness for C1 at value 42, profile "global", key "a.b.c". -/
theorem produce_keyed_abc_witness :
    Serialized.data (fun v : Value => .ok v) ⟨Value.num 42, some "a.b.c", "global", "loc"⟩ =
      .ok [("global", [("a", Value.dict [("b", Value.dict [("c", Value.num 42)])])])] :=
  produce_keyed_abc _ _ (Value.num 42) rfl rfl

/-- C2 counterexample: with value 7, profile "p" and key "a..b", `data`
returns `{"p" ↦ {"a": 7}}` — the segment "b" after the empty segment is
dropped — and not the claimed `{"p" ↦ {"a": {"b": 7}}}`. -/
theorem keyed_empty_mid_counterexample :
    Serialized.data (fun v : Value => .ok v) ⟨Value.num 7, some "a..b", "p", "loc"⟩ =
      .ok [("p", [("a", Value.num 7)])] ∧
    Serialized.data (fun v : Value => .ok v) ⟨Value.num 7, some "a..b", "p", "loc"⟩ ≠
      .ok [("p", [("a", Value.dict [("b", Value.num 7)])])] := by
  refine ⟨rfl, fun h => ?_⟩
  have h2 : (Except.ok [("p", [("a", Value.num 7)])] :
      Except Error (List (Profile × Dict))) =
      .ok [("p", [("a", Value.dict [("b", Value.num 7)])])] := h
  simp at h2

/-- C2 amended: for every value whose serialization succeeds and every
profile, `data` with key "a..b" does not fail, but the empty middle segment
stops the wrapping: the result is `{profile ↦ {"a": serialized value}}`, and
the segment "b" is discarded. -/
theorem keyed_empty_mid_amended {T : Type} (ser : T → Except String Value)
    (s : Serialized T) (v : Value) (hser : ser s.value = .ok v)
    (hkey : s.key = some "a..b") :
    Serialized.data ser s = .ok [(s.profile, [("a", v)])] := by
  have hsplit : splitString '.' "a..b" = ["a", "", "b"] := by decide
  simp only [Serialized.data, hser, hkey, hsplit]
  rw [value_from_cons_ne _ _ (by decide), value_from_cons_empty]
  rfl

/-- Witness for the amended C2 at value 7, profile "p". -/
theorem keyed_empty_mid_amended_witness :
    Serialized.data (fun v : Value => .ok v) ⟨Value.num 7, some "a..b", "p", "loc"⟩ =
      .ok [("p", [("a", Value.num 7)])] :=
  keyed_empty_mid_amended _ _ (Value.num 7) rfl rfl

/-- C4: for every value serializing to a dictionary `d` and every profile,
unkeyed `data` succeeds with the single-entry mapping `{profile ↦ d}`, the
dictionary passed through unchanged. -/
theorem produce_unkeyed_dict {T : Type} (ser : T → Except String Value)
    (s : Serialized T) (d : Dict) (hser : ser s.value = .ok (Value.dict d))
    (hkey : s.key = none) :
    Serialized.data ser s = .ok [(s.profile, d)] := by
  simp [Serialized.data, hser, hkey, Value.into_dict, Profile.collect]

/-- Witness for C4: the spec's concrete scenario `{"numbers": [1,2,3]}`,
no key, profile "default". -/
theorem produce_unkeyed_dict_witness :
    Serialized.data (fun v : Value => .ok v)
      ⟨Value.dict [("numbers", Value.array [Value.num 1, Value.num 2, Value.num 3])],
        none, "default", "loc"⟩ =
      .ok [("default",
        [("numbers", Value.array [Value.num 1, Value.num 2, Value.num 3])])] :=
  produce_unkeyed_dict _ _ _ rfl rfl

/-- C5: for every value serializing to a non-dictionary and every profile,
unkeyed `data` fails with the invalid-type (TypeMismatch) error whose actual
field is the kind of the serialized value and whose expected field is "map". -/
theorem produce_unkeyed_nondict {T : Type} (ser : T → Except String Value)
    (s : Serialized T) (v : Value) (hser : ser s.value = .ok v)
    (hkey : s.key = none) (hnd : v.into_dict = none) :
    Serialized.data ser s = .error (Error.invalidType v.to_actual "map") := by
  simp [Serialized.data, hser, hkey, hnd]

/-- Witness for C5 at the integer 42: the error carries actual "integer",
expected "map". -/
theorem produce_unkeyed_nondict_witness :
    Serialized.data (fun v : Value => .ok v) ⟨Value.num 42, none, "default", "loc"⟩ =
      .error (Error.invalidType "integer" "map") :=
  produce_unkeyed_nondict _ _ (Value.num 42) rfl rfl rfl

/-- C3 counterexample: the key ".a" contains the non-empty segment "a", yet
with the scalar value 7 `data` returns the invalid-type (TypeMismatch)
error — the wrapping stopped at the leading empty segment, leaving a
non-dictionary result. -/
theorem nonempty_segment_mismatch_counterexample :
    Serialized.data (fun v : Value => .ok v) ⟨Value.num 7, some ".a", "p", "loc"⟩ =
      .error (Error.invalidType "integer" "map") ∧
    "a" ∈ splitString '.' ".a" ∧ "a" ≠ "" :=
  ⟨rfl, by decide, by decide⟩

/-- C3 amended: whenever the FIRST `.`-split segment of the key path is
non-empty (rather than any segment anywhere), the path-wrapped result is
dictionary-shaped, so `data` never returns an invalid-type (TypeMismatch)
error. -/
theorem first_nonempty_no_mismatch {T : Type} (ser : T → Except String Value)
    (s : Serialized T) (key seg : String) (rest : List String)
    (hkey : s.key = some key) (hsplit : splitString '.' key = seg :: rest)
    (hne : seg ≠ "") :
    ∀ a e, Serialized.data ser s ≠ .error (Error.invalidType a e) := by
  intro a e h
  cases hser : ser s.value with
  | error cause =>
    simp only [Serialized.data, hser] at h
    simp at h
  | ok v =>
    simp only [Serialized.data, hser, hkey, hsplit] at h
    rw [value_from_cons_ne rest v hne] at h
    simp [Value.into_dict] at h

/-- Witness for the amended C3 at key "a.b" and value 7. -/
theorem first_nonempty_no_mismatch_witness :
    Serialized.data (fun v : Value => .ok v) ⟨Value.num 7, some "a.b", "p", "loc"⟩ ≠
      .error (Error.invalidType "integer" "map") :=
  first_nonempty_no_mismatch _ ⟨Value.num 7, some "a.b", "p", "loc"⟩ "a.b" "a" ["b"]
    rfl (by decide) (by decide) "integer" "map"

/-- C6: a key path all of whose `.`-split segments are empty (the empty
string, or a string of dots only) behaves exactly as no key path at all:
`data` returns the same success value or the same error as on the identical
descriptor with no key. -/
theorem produce_all_empty_key_eq_unkeyed {T : Type} (ser : T → Except String Value)
    (s : Serialized T) (key : String) (hkey : s.key = some key)
    (hempty : ∀ seg ∈ splitString '.' key, seg = "") :
    Serialized.data ser s = Serialized.data ser { s with key := none } := by
  cases hser : ser s.value with
  | error cause => simp [Serialized.data, hser]
  | ok v =>
    simp only [Serialized.data, hser, hkey]
    rw [value_from_all_empty v hempty]

/-- Witness for C6 at the empty key path and the scalar value 7 (both sides
are the same invalid-type error). -/
theorem produce_all_empty_key_eq_unkeyed_witness :
    Serialized.data (fun v : Value => .ok v) ⟨Value.num 7, some "", "p", "loc"⟩ =
      Serialized.data (fun v : Value => .ok v) ⟨Value.num 7, none, "p", "loc"⟩ :=
  produce_all_empty_key_eq_unkeyed _ ⟨Value.num 7, some "", "p", "loc"⟩ "" rfl (by decide)

/-- C7: `data` is deterministic and reads no mutable or hidden state: its
result depends only on the descriptor's value, key and profile fields (not
even on the diagnostic location), so two calls on the same unmodified
descriptor yield structurally equal mappings; in this embedding `data` is a
pure function of the descriptor and the serialization facility, which is the
translation of the source's `fn data(&self)` never mutating any field. -/
theorem produce_idempotent {T : Type} (ser : T → Except String Value)
    (s₁ s₂ : Serialized T) (hv : s₁.value = s₂.value) (hk : s₁.key = s₂.key)
    (hp : s₁.profile = s₂.profile) :
    Serialized.data ser s₁ = Serialized.data ser s₂ := by
  cases s₁ with
  | mk v₁ k₁ p₁ l₁ =>
    cases s₂ with
    | mk v₂ k₂ p₂ l₂ =>
      simp only at hv hk hp
      subst hv; subst hk; subst hp
      rfl

/-- Witness for C7: two descriptors identical in value, key and profile
(differing only in the recorded location) produce the same mapping. -/
theorem produce_idempotent_witness :
    Serialized.data (fun v : Value => .ok v)
      ⟨Value.dict [("x", Value.num 1)], none, "p", "locA"⟩ =
      Serialized.data (fun v : Value => .ok v)
        ⟨Value.dict [("x", Value.num 1)], none, "p", "locB"⟩ :=
  produce_idempotent _ _ _ rfl rfl rfl

/-- C8: the `profile` and `key` builders are pure frame-preserving updates:
`profile'` replaces exactly the profile field and `key'` sets exactly the key
field, each leaving the value, the other field and the recorded location
unchanged. -/
theorem with_profile_with_key_pure {T : Type} (s : Serialized T) (p : Profile)
    (k : String) :
    (s.profile' p).profile = p ∧ (s.profile' p).value = s.value ∧
    (s.profile' p).key = s.key ∧ (s.profile' p).loc = s.loc ∧
    (s.key' k).key = some k ∧ (s.key' k).value = s.value ∧
    (s.key' k).profile = s.profile ∧ (s.key' k).loc = s.loc :=
  ⟨rfl, rfl, rfl, rfl, rfl, rfl, rfl, rfl⟩

/-- C9: path wrapping truncates at the first empty segment: for every key
path and every value, `value_from` over the `.`-split segments nests exactly
the maximal prefix of non-empty segments, and every segment at or after the
first empty segment is discarded. -/
theorem value_from_truncates_at_empty (key : String) (v : Value) :
    value_from (splitString '.' key) v =
      ((splitString '.' key).takeWhile (fun seg => seg != "")).foldr
        (fun k acc => Value.dict [(k, acc)]) v := by
  generalize splitString '.' key = ks
  induction ks with
  | nil => rfl
  | cons k ks ih =>
    by_cases h : k = ""
    · subst h
      rw [value_from_cons_empty]
      simp [List.takeWhile_cons]
    · rw [value_from_cons_ne ks v h]
      simp only [List.takeWhile_cons, bne_iff_ne, ne_eq, h, not_false_eq_true,
        if_true, List.foldr_cons, ih]

/-- C10: if the first `.`-split segment of the key path is non-empty, the
wrapped result is a one-entry dictionary keyed by that first segment — so
`data` succeeds with exactly that dictionary whenever serialization
succeeds, and its only possible failure is a serialization error. -/
theorem keyed_first_nonempty_shape {T : Type} (ser : T → Except String Value)
    (s : Serialized T) (key seg : String) (rest : List String)
    (hkey : s.key = some key) (hsplit : splitString '.' key = seg :: rest)
    (hne : seg ≠ "") :
    (∀ v, ser s.value = .ok v →
      Serialized.data ser s = .ok [(s.profile, [(seg, value_from rest v)])]) ∧
    (∀ e, Serialized.data ser s = .error e →
      ∃ cause, e = Error.serialization cause) := by
  constructor
  · intro v hser
    simp only [Serialized.data, hser, hkey, hsplit]
    rw [value_from_cons_ne rest v hne]
    rfl
  · intro e h
    cases hser : ser s.value with
    | error cause =>
      simp only [Serialized.data, hser] at h
      exact ⟨cause, by injection h with h2; exact h2.symm⟩
    | ok v =>
      simp only [Serialized.data, hser, hkey, hsplit] at h
      rw [value_from_cons_ne rest v hne] at h
      simp [Value.into_dict] at h

/-- Witness for C10 at key "a.b" and value 7. -/
theorem keyed_first_nonempty_shape_witness :
    Serialized.data (fun v : Value => .ok v) ⟨Value.num 7, some "a.b", "p", "loc"⟩ =
      .ok [("p", [("a", value_from ["b"] (Value.num 7))])] :=
  (keyed_first_nonempty_shape _ ⟨Value.num 7, some "a.b", "p", "loc"⟩ "a.b" "a" ["b"]
    rfl (by decide) (by decide)).1 (Value.num 7) rfl

end Figment
